import Mathlib

/-!
Verification development for the Duespay payment-reconciliation core:
fee calculation, webhook signature verification, webhook consumption and
payment initiation, shallowly embedded from
`src/transactions/paystackServices.py` and `src/transactions/views.py`.

Monetary values are Python `Decimal`s in the source; they are embedded as
exact rationals (`ℚ`).  `Decimal.quantize(Decimal("0.01"))` with the default
context rounding is round-half-even; with `rounding=ROUND_HALF_UP` it rounds
ties away from zero.  Both are embedded below on `ℚ`.
-/

namespace Duespay

/-- Python `ROUND_HALF_UP`: round to the nearest integer, ties away from
zero. -/
def roundHalfUp (x : ℚ) : ℤ :=
  if 0 ≤ x then ⌊x + 1 / 2⌋ else -⌊-x + 1 / 2⌋

/-- Python `ROUND_HALF_EVEN` (the default `Decimal` context rounding):
round to the nearest integer, ties to the even neighbour. -/
def roundHalfEven (x : ℚ) : ℤ :=
  if x - ⌊x⌋ < 1 / 2 then ⌊x⌋
  else if 1 / 2 < x - ⌊x⌋ then ⌊x⌋ + 1
  else if Even ⌊x⌋ then ⌊x⌋ else ⌊x⌋ + 1

/-- Python `Decimal(x).quantize(Decimal("0.01"), rounding=ROUND_HALF_UP)`. -/
def quantize2HalfUp (x : ℚ) : ℚ := (roundHalfUp (x * 100) : ℚ) / 100

/-- Python `Decimal(x).quantize(Decimal("0.01"))` with the default context
rounding (`ROUND_HALF_EVEN`). -/
def quantize2HalfEven (x : ℚ) : ℚ := (roundHalfEven (x * 100) : ℚ) / 100

/-- The value object returned by `calculate_paystack_charges`
(`src/transactions/paystackServices.py`, lines 62-97). -/
structure ChargeBreakdown where
  base_amount : ℚ
  transaction_fee : ℚ
  total_amount : ℚ
  deriving Repr, DecidableEq

/-- Embedding of `calculate_paystack_charges`
(`src/transactions/paystackServices.py`, lines 62-97):
quantize the input to 2 fraction digits (default half-even rounding),
take 1.5% rounded half-up to 2 fraction digits, add the flat 100.00 fee,
waive the flat fee under 2500.00, cap the fee at 2000.00. -/
def calculate_paystack_charges (amount : ℚ) : ChargeBreakdown :=
  let base_amount := quantize2HalfEven amount
  let percentage_fee := quantize2HalfUp (base_amount * (15 / 1000))
  let flat_fee : ℚ := 100
  let fee_with_flat := percentage_fee + flat_fee
  let fee_waived := if base_amount < 2500 then percentage_fee else fee_with_flat
  let transaction_fee := if fee_waived > 2000 then 2000 else fee_waived
  { base_amount := base_amount
    transaction_fee := transaction_fee
    total_amount := base_amount + transaction_fee }

example : calculate_paystack_charges 1000 =
    { base_amount := 1000, transaction_fee := 15, total_amount := 1015 } := by
  norm_num [calculate_paystack_charges, quantize2HalfEven, quantize2HalfUp,
    roundHalfEven, roundHalfUp, Int.even_iff]

example : calculate_paystack_charges 5000 =
    { base_amount := 5000, transaction_fee := 175, total_amount := 5175 } := by
  norm_num [calculate_paystack_charges, quantize2HalfEven, quantize2HalfUp,
    roundHalfEven, roundHalfUp, Int.even_iff]

example : calculate_paystack_charges 150000 =
    { base_amount := 150000, transaction_fee := 2000, total_amount := 152000 } := by
  norm_num [calculate_paystack_charges, quantize2HalfEven, quantize2HalfUp,
    roundHalfEven, roundHalfUp, Int.even_iff]

example : (calculate_paystack_charges (81 / 8)).base_amount = 253 / 25 := by
  norm_num [calculate_paystack_charges, quantize2HalfEven, quantize2HalfUp,
    roundHalfEven, roundHalfUp, Int.even_iff]

theorem roundHalfEven_intCast (n : ℤ) : roundHalfEven (n : ℚ) = n := by
  simp [roundHalfEven]

theorem quantize2HalfEven_div100 (k : ℤ) :
    quantize2HalfEven ((k : ℚ) / 100) = (k : ℚ) / 100 := by
  unfold quantize2HalfEven
  rw [div_mul_cancel₀ _ (by norm_num : (100 : ℚ) ≠ 0), roundHalfEven_intCast]

/-- Round-half-even rounds to a nearest integer, with ties going to the
even neighbour. -/
theorem roundHalfEven_spec (x : ℚ) :
    |x - roundHalfEven x| ≤ 1 / 2 ∧
      (|x - roundHalfEven x| = 1 / 2 → Even (roundHalfEven x)) := by
  have hf0 : (0 : ℚ) ≤ x - ⌊x⌋ := by
    have := Int.floor_le x
    linarith
  have hf1 : x - ⌊x⌋ < 1 := by
    have := Int.lt_floor_add_one x
    push_cast at this ⊢
    linarith
  unfold roundHalfEven
  by_cases h1 : x - ⌊x⌋ < 1 / 2
  · rw [if_pos h1]
    constructor
    · rw [abs_le]; constructor <;> linarith
    · intro habs
      rw [abs_of_nonneg hf0] at habs
      exact absurd habs (by linarith)
  · rw [if_neg h1]
    by_cases h2 : 1 / 2 < x - ⌊x⌋
    · rw [if_pos h2]
      push_cast
      constructor
      · rw [abs_le]; constructor <;> linarith
      · intro habs
        rw [abs_of_nonpos (by linarith)] at habs
        exact absurd habs (by intro h; linarith)
    · rw [if_neg h2]
      have heq : x - ⌊x⌋ = 1 / 2 := le_antisymm (not_lt.mp h2) (not_lt.mp h1)
      by_cases he : Even ⌊x⌋
      · rw [if_pos he]
        refine ⟨by rw [abs_of_nonneg hf0]; linarith, fun _ => he⟩
      · rw [if_neg he]
        push_cast
        refine ⟨by rw [abs_of_nonpos (by linarith)]; linarith, fun _ => ?_⟩
        exact (Int.even_add_one).mpr he

theorem roundHalfUp_of_nonneg (x : ℚ) (h : 0 ≤ x) :
    roundHalfUp x = ⌊x + 1 / 2⌋ := if_pos h

/-- C1.  Fee schedule of `calculate_paystack_charges`
(`src/transactions/paystackServices.py`, lines 62-97): for every
non-negative 2-fraction-digit `base_amount`, when `base_amount ≥ 2500.00`
the fee is `min(round_half_up(base_amount*0.015, 2) + 100.00, 2000.00)`;
when `base_amount < 2500.00` the fee is
`round_half_up(base_amount*0.015, 2)` with no flat fee (and in particular
it never exceeds the 2000.00 cap); and
`total_amount = base_amount + transaction_fee`, exactly. -/
theorem C1_fee_schedule (q : ℚ) (h2dp : ∃ k : ℕ, q = (k : ℚ) / 100) :
    (calculate_paystack_charges q).base_amount = q ∧
      (2500 ≤ q →
        (calculate_paystack_charges q).transaction_fee =
          min (quantize2HalfUp (q * (15 / 1000)) + 100) 2000) ∧
      (q < 2500 →
        (calculate_paystack_charges q).transaction_fee =
          quantize2HalfUp (q * (15 / 1000)) ∧
        (calculate_paystack_charges q).transaction_fee ≤ 2000) ∧
      (calculate_paystack_charges q).total_amount =
        q + (calculate_paystack_charges q).transaction_fee := by
  obtain ⟨k, hk⟩ := h2dp
  have hq0 : 0 ≤ q := by
    rw [hk]; positivity
  have hbase : quantize2HalfEven q = q := by
    rw [hk]; exact quantize2HalfEven_div100 (k : ℤ)
  unfold calculate_paystack_charges
  simp only [hbase]
  refine ⟨trivial, fun hge => ?_, fun hlt => ?_, trivial⟩
  · rw [if_neg (not_lt.mpr hge)]
    rcases le_or_lt (quantize2HalfUp (q * (15 / 1000)) + 100) 2000 with h | h
    · rw [if_neg (not_lt.mpr h), min_eq_left h]
    · rw [if_pos h, min_eq_right h.le]
  · rw [if_pos hlt]
    have hpct : quantize2HalfUp (q * (15 / 1000)) ≤ 2000 := by
      unfold quantize2HalfUp
      have hx0 : 0 ≤ q * (15 / 1000) * 100 := by positivity
      rw [roundHalfUp_of_nonneg _ hx0]
      have hlt' : q * (15 / 1000) * 100 + 1 / 2 < 3751 := by nlinarith
      have hfl : ⌊q * (15 / 1000) * 100 + 1 / 2⌋ < 3751 := by
        rw [Int.floor_lt]; push_cast; exact hlt'
      have hfl' : (⌊q * (15 / 1000) * 100 + 1 / 2⌋ : ℚ) ≤ 3750 := by
        have : ⌊q * (15 / 1000) * 100 + 1 / 2⌋ ≤ 3750 := by omega
        exact_mod_cast this
      linarith
    rw [if_neg (not_lt.mpr hpct)]
    exact ⟨rfl, hpct⟩

theorem C1_fee_schedule_witness :
    (calculate_paystack_charges 5000).base_amount = 5000 ∧
      (calculate_paystack_charges 5000).transaction_fee =
        min (quantize2HalfUp (5000 * (15 / 1000)) + 100) 2000 ∧
      (calculate_paystack_charges 5000).total_amount =
        5000 + (calculate_paystack_charges 5000).transaction_fee := by
  obtain ⟨h1, h2, _, h4⟩ := C1_fee_schedule 5000 ⟨500000, by norm_num⟩
  exact ⟨h1, h2 (by norm_num), h4⟩

/-- C2 (counterexample).  The claim says the base amount is rounded
half-up, so the input 10.125 (= 81/8) would have to round to 10.13; the
source quantizes with the default `Decimal` rounding (half-even) and
yields 10.12. -/
theorem C2_counterexample :
    (calculate_paystack_charges (81 / 8)).base_amount = 1012 / 100 ∧
      (calculate_paystack_charges (81 / 8)).base_amount ≠ 1013 / 100 := by
  constructor <;>
    norm_num [calculate_paystack_charges, quantize2HalfEven, quantize2HalfUp,
      roundHalfEven, roundHalfUp, Int.even_iff]

/-- C2 (amended).  `calculate_paystack_charges` rounds the input to a
nearest 2-fraction-digit value before any fee computation, with ties going
to the even cent (round-half-even, the default `Decimal` quantize
rounding), not half-up: an input whose distance to the chosen 2-decimal
value is exactly 0.005 is rounded to an even number of hundredths, so
10.125 yields 10.12. -/
theorem C2_base_rounding_half_even (q : ℚ) :
    ∃ n : ℤ, (calculate_paystack_charges q).base_amount = (n : ℚ) / 100 ∧
      |q - (n : ℚ) / 100| ≤ 1 / 200 ∧
      (|q - (n : ℚ) / 100| = 1 / 200 → Even n) := by
  refine ⟨roundHalfEven (q * 100), rfl, ?_, ?_⟩
  · have h := (roundHalfEven_spec (q * 100)).1
    rw [abs_le] at h ⊢
    constructor <;> [linarith [h.1]; linarith [h.2]]
  · intro habs
    apply (roundHalfEven_spec (q * 100)).2
    have : q - (roundHalfEven (q * 100) : ℚ) / 100 =
        (q * 100 - roundHalfEven (q * 100)) / 100 := by ring
    rw [this, abs_div, abs_of_pos (by norm_num : (0:ℚ) < 100)] at habs
    rw [show (1 : ℚ) / 2 = 1 / 200 * 100 by norm_num]
    rw [div_eq_iff (by norm_num : (100:ℚ) ≠ 0)] at habs
    rw [habs]

/-! ## Webhook signature verification
(`src/transactions/paystackServices.py`, lines 23-38) -/

/-- One lowercase hexadecimal digit, as produced by Python `hexdigest()`. -/
def hexDigitChar (n : Nat) : Char :=
  if n < 10 then Char.ofNat (48 + n) else Char.ofNat (87 + n)

/-- One byte rendered as two lowercase hexadecimal characters. -/
def byteToHex (b : Nat) : String :=
  String.mk [hexDigitChar (b / 16 % 16), hexDigitChar (b % 16)]

/-- A byte string rendered as lowercase hexadecimal, as Python
`hexdigest()` renders a digest. -/
def bytesToHexLower (bs : List Nat) : String :=
  String.join (bs.map byteToHex)

/-- Embedding of `compute_paystack_signature`
(`src/transactions/paystackServices.py`, lines 29-30).  The HMAC-SHA512
digest itself is an abstract function argument `hmacSha512` mapping the
key and the raw body bytes to digest bytes; the rendering to lowercase
hexadecimal is concrete. -/
def compute_paystack_signature (hmacSha512 : String → List Nat → List Nat)
    (secret : String) (raw : List Nat) : String :=
  bytesToHexLower (hmacSha512 secret raw)

/-- Embedding of `is_valid_paystack_signature`
(`src/transactions/paystackServices.py`, lines 33-38): false on an empty
configured secret or an empty header signature, otherwise the result of
the (constant-time) equality comparison of the expected hex digest with
the header signature. -/
def is_valid_paystack_signature (hmacSha512 : String → List Nat → List Nat)
    (secret : String) (raw_body : List Nat) (header_signature : String) : Bool :=
  if secret = "" || header_signature = "" then false
  else compute_paystack_signature hmacSha512 secret raw_body == header_signature

/-! ## Transaction store and the Paystack webhook handler
(`src/transactions/views.py`, lines 360-416) -/

/-- Modelled from the spec: the persisted `Transaction` row.
`transactions/models.py` is not among the provided sources; spec sections
3 and 6 give a unique reference string, a base amount (decimal, 2
fraction digits) and a verification flag that starts false.  Foreign
keys, the payment-item link set and the timestamp are omitted: no claim
below depends on them. -/
structure Transaction where
  reference_id : String
  amount_paid : ℚ
  is_verified : Bool
  deriving Repr, DecidableEq

/-- Embedding of `Transaction.objects.get(reference_id=reference)`: the first stored
row with the given reference, if any. -/
def findTxn (db : List Transaction) (ref : String) : Option Transaction :=
  db.find? (fun t => t.reference_id == ref)

/-- Embedding of `txn.is_verified = True; txn.save(update_fields=["is_verified"])`:
persist only the verification flag of the rows with the given
reference. -/
def setVerified (db : List Transaction) (ref : String) : List Transaction :=
  db.map (fun t =>
    if t.reference_id == ref then { t with is_verified := true } else t)

/-- The fields of the parsed webhook JSON envelope that the handler
reads: `payload.get("event")`, `data.get("reference")` and
`data.get("amount", 0)` (kobo). -/
structure WebhookPayload where
  event : Option String
  reference : Option String
  amount : Option ℤ
  deriving Repr, DecidableEq

/-- An inbound webhook request: the raw body bytes (signed), the
`x-paystack-signature` header (absent ↦ `none`) and the result of JSON
parsing of the body (`none` ↦ `json.JSONDecodeError`). -/
structure WebhookRequest where
  raw_body : List Nat
  signature : Option String
  payload : Option WebhookPayload

/-- What one webhook delivery produces: the HTTP status, the transaction
store afterwards, and the total amount the handler logs on the verifying
path (`amount_paid_total`, logged only, never stored). -/
structure WebhookResult where
  status : Nat
  db : List Transaction
  logged_total : Option ℚ
  deriving DecidableEq

/-- Embedding of `paystack_webhook` (`src/transactions/views.py`, lines
360-416): 403 on invalid signature; 200 and no state change on invalid
JSON, on an event other than `charge.success`/`transfer.success`, on a
missing reference, on an unknown reference, and on an already-verified
transaction; otherwise mark the transaction verified (only that field)
and acknowledge with 200, logging the event amount divided by 100. -/
def paystack_webhook (hmacSha512 : String → List Nat → List Nat)
    (secret : String) (db : List Transaction) (req : WebhookRequest) :
    WebhookResult :=
  if ¬ is_valid_paystack_signature hmacSha512 secret req.raw_body
      (req.signature.getD "") then
    ⟨403, db, none⟩
  else
    match req.payload with
    | none => ⟨200, db, none⟩
    | some payload =>
      if payload.event ≠ some "charge.success" ∧
          payload.event ≠ some "transfer.success" then
        ⟨200, db, none⟩
      else
        match payload.reference with
        | none => ⟨200, db, none⟩
        | some ref =>
          if ref = "" then ⟨200, db, none⟩
          else
            match findTxn db ref with
            | none => ⟨200, db, none⟩
            | some txn =>
              if txn.is_verified then ⟨200, db, none⟩
              else
                ⟨200, setVerified db ref,
                  some ((payload.amount.getD 0 : ℚ) / 100)⟩

theorem findTxn_setVerified (db : List Transaction) (x r : String) :
    findTxn (setVerified db x) r = (findTxn db r).map (fun t =>
      if t.reference_id == x then { t with is_verified := true } else t) := by
  unfold findTxn setVerified
  rw [List.find?_map]
  have hp : ((fun t : Transaction => t.reference_id == r) ∘ fun t =>
      if (t.reference_id == x) = true then { t with is_verified := true }
      else t) = fun t : Transaction => t.reference_id == r := by
    funext t
    by_cases h : (t.reference_id == x) = true <;>
      simp [h, Function.comp]
  rw [hp]

/-- The webhook handler never reverts a verified transaction: a row that
is found verified before a delivery is found unchanged afterwards. -/
theorem paystack_webhook_preserves_verified
    (hmacSha512 : String → List Nat → List Nat) (secret : String)
    (db : List Transaction) (req : WebhookRequest) (r : String)
    (t : Transaction) (hfind : findTxn db r = some t)
    (hver : t.is_verified = true) :
    findTxn (paystack_webhook hmacSha512 secret db req).db r = some t := by
  have hset : ∀ (x : String) (txn : Transaction), findTxn db x = some txn →
      txn.is_verified = false → findTxn (setVerified db x) r = some t := by
    intro x txn hx hxv
    rw [findTxn_setVerified, hfind, Option.map_some']
    by_cases hxr : t.reference_id = x
    · exfalso
      have htr : t.reference_id = r := by simpa using List.find?_some hfind
      have hxr' : x = r := by rw [← hxr, htr]
      rw [hxr', hfind] at hx
      injection hx with h
      rw [← h, hver] at hxv
      exact Bool.noConfusion hxv
    · simp [hxr]
  unfold paystack_webhook
  split
  · exact hfind
  split
  · exact hfind
  split
  · exact hfind
  split
  · exact hfind
  split
  · exact hfind
  split
  · exact hfind
  split
  · exact hfind
  · rename_i txn hfindref hunv
    exact hset _ txn hfindref (by simpa using hunv)

theorem findTxn_setVerified_self (db : List Transaction) (r : String)
    (t : Transaction) (hfind : findTxn db r = some t) :
    findTxn (setVerified db r) r = some { t with is_verified := true } := by
  rw [findTxn_setVerified, hfind, Option.map_some']
  have htr : t.reference_id = r := by simpa using List.find?_some hfind
  simp [htr]

/-- On a valid signature, a success event and a reference resolving to an
unverified transaction, the handler returns 200, flips only the
verification flag, and logs the event amount divided by 100. -/
theorem paystack_webhook_verifies (hmacSha512 : String → List Nat → List Nat)
    (secret : String) (db : List Transaction) (req : WebhookRequest)
    (payload : WebhookPayload) (r : String) (t : Transaction)
    (hsig : is_valid_paystack_signature hmacSha512 secret req.raw_body
      (req.signature.getD "") = true)
    (hp : req.payload = some payload)
    (hev : payload.event = some "charge.success" ∨
      payload.event = some "transfer.success")
    (href : payload.reference = some r) (hr : r ≠ "")
    (hfind : findTxn db r = some t) (hunv : t.is_verified = false) :
    paystack_webhook hmacSha512 secret db req =
      ⟨200, setVerified db r, some ((payload.amount.getD 0 : ℚ) / 100)⟩ := by
  have hev' : ¬(payload.event ≠ some "charge.success" ∧
      payload.event ≠ some "transfer.success") := by
    rcases hev with h | h <;> simp [h]
  unfold paystack_webhook
  rw [if_neg (by simp [hsig]), hp]
  dsimp only
  rw [if_neg hev', href]
  dsimp only
  rw [if_neg hr, hfind]
  dsimp only
  rw [if_neg (by simp [hunv])]

/-- On a valid signature, a success event and a reference resolving to an
already-verified transaction, the handler acknowledges with 200 and
changes nothing. -/
theorem paystack_webhook_noop_verified
    (hmacSha512 : String → List Nat → List Nat)
    (secret : String) (db : List Transaction) (req : WebhookRequest)
    (payload : WebhookPayload) (r : String) (t : Transaction)
    (hsig : is_valid_paystack_signature hmacSha512 secret req.raw_body
      (req.signature.getD "") = true)
    (hp : req.payload = some payload)
    (hev : payload.event = some "charge.success" ∨
      payload.event = some "transfer.success")
    (href : payload.reference = some r) (hr : r ≠ "")
    (hfind : findTxn db r = some t) (hver : t.is_verified = true) :
    paystack_webhook hmacSha512 secret db req = ⟨200, db, none⟩ := by
  have hev' : ¬(payload.event ≠ some "charge.success" ∧
      payload.event ≠ some "transfer.success") := by
    rcases hev with h | h <;> simp [h]
  unfold paystack_webhook
  rw [if_neg (by simp [hsig]), hp]
  dsimp only
  rw [if_neg hev', href]
  dsimp only
  rw [if_neg hr, hfind]
  dsimp only
  rw [if_pos hver]

/-- C3.  `is_valid_paystack_signature` returns false when the configured
secret is empty, false when the header signature is empty, false when the
header signature differs from the lowercase hex HMAC-SHA512 of the raw
body keyed with the secret, and true otherwise; being a total function of
its inputs, it never throws. -/
theorem C3_signature_verifier (hmacSha512 : String → List Nat → List Nat)
    (secret : String) (raw_body : List Nat) (header_signature : String) :
    (secret = "" →
      is_valid_paystack_signature hmacSha512 secret raw_body
        header_signature = false) ∧
    (header_signature = "" →
      is_valid_paystack_signature hmacSha512 secret raw_body
        header_signature = false) ∧
    (header_signature ≠
        compute_paystack_signature hmacSha512 secret raw_body →
      is_valid_paystack_signature hmacSha512 secret raw_body
        header_signature = false) ∧
    (secret ≠ "" → header_signature ≠ "" →
      header_signature =
        compute_paystack_signature hmacSha512 secret raw_body →
      is_valid_paystack_signature hmacSha512 secret raw_body
        header_signature = true) := by
  refine ⟨fun hs => ?_, fun hh => ?_, fun hne => ?_, fun hs hh heq => ?_⟩
  · simp [is_valid_paystack_signature, hs]
  · simp [is_valid_paystack_signature, hh]
  · unfold is_valid_paystack_signature
    split
    · rfl
    · rw [beq_eq_false_iff_ne]
      exact fun h => hne h.symm
  · have h' : compute_paystack_signature hmacSha512 secret raw_body ≠ "" :=
      fun hc => hh (by rw [heq, hc])
    simp [is_valid_paystack_signature, hs, h', heq]

theorem C3_signature_verifier_witness :
    is_valid_paystack_signature (fun _ _ => [0, 255]) "" [1] "00ff" = false ∧
    is_valid_paystack_signature (fun _ _ => [0, 255]) "sk" [1] "" = false ∧
    is_valid_paystack_signature (fun _ _ => [0, 255]) "sk" [1] "beef" = false ∧
    is_valid_paystack_signature (fun _ _ => [0, 255]) "sk" [1] "00ff" = true :=
  ⟨(C3_signature_verifier (fun _ _ => [0, 255]) "" [1] "00ff").1 rfl,
   (C3_signature_verifier (fun _ _ => [0, 255]) "sk" [1] "").2.1 rfl,
   (C3_signature_verifier (fun _ _ => [0, 255]) "sk" [1] "beef").2.2.1
     (by decide),
   (C3_signature_verifier (fun _ _ => [0, 255]) "sk" [1] "00ff").2.2.2
     (by decide) (by decide) (by decide)⟩

/-- C5.  With a valid signature, a webhook whose event type is not
`charge.success`/`transfer.success`, or whose reference is absent or
empty, or whose reference resolves to no known transaction, is
acknowledged with HTTP 200 and changes no transaction state (and, being a
total function, the handler raises no error); the response status is
always 200 or 403, and it is 403 exactly when the signature is
invalid. -/
theorem C5_webhook_benign_acknowledgment
    (hmacSha512 : String → List Nat → List Nat) (secret : String)
    (db : List Transaction) (req : WebhookRequest) :
    ((paystack_webhook hmacSha512 secret db req).status = 403 ↔
      is_valid_paystack_signature hmacSha512 secret req.raw_body
        (req.signature.getD "") = false) ∧
    ((paystack_webhook hmacSha512 secret db req).status = 200 ∨
      (paystack_webhook hmacSha512 secret db req).status = 403) ∧
    (is_valid_paystack_signature hmacSha512 secret req.raw_body
        (req.signature.getD "") = true →
      ∀ payload, req.payload = some payload →
        ((payload.event ≠ some "charge.success" ∧
            payload.event ≠ some "transfer.success") ∨
          payload.reference = none ∨ payload.reference = some "" ∨
          (∃ r, payload.reference = some r ∧ findTxn db r = none)) →
        paystack_webhook hmacSha512 secret db req = ⟨200, db, none⟩) := by
  have hbenign : ∀ payload,
      is_valid_paystack_signature hmacSha512 secret req.raw_body
        (req.signature.getD "") = true →
      req.payload = some payload →
      ((payload.event ≠ some "charge.success" ∧
          payload.event ≠ some "transfer.success") ∨
        payload.reference = none ∨ payload.reference = some "" ∨
        (∃ r, payload.reference = some r ∧ findTxn db r = none)) →
      paystack_webhook hmacSha512 secret db req = ⟨200, db, none⟩ := by
    intro payload hv hp hb
    unfold paystack_webhook
    rw [if_neg (by simp [hv]), hp]
    dsimp only
    rcases hb with hev | hrnone | hrempty | ⟨r, hrsome, hfind⟩
    · rw [if_pos hev]
    · by_cases hev : payload.event ≠ some "charge.success" ∧
          payload.event ≠ some "transfer.success"
      · rw [if_pos hev]
      · rw [if_neg hev, hrnone]
    · by_cases hev : payload.event ≠ some "charge.success" ∧
          payload.event ≠ some "transfer.success"
      · rw [if_pos hev]
      · rw [if_neg hev, hrempty]
        dsimp only
        rw [if_pos rfl]
    · by_cases hev : payload.event ≠ some "charge.success" ∧
          payload.event ≠ some "transfer.success"
      · rw [if_pos hev]
      · rw [if_neg hev, hrsome]
        dsimp only
        by_cases hre : r = ""
        · rw [if_pos hre]
        · rw [if_neg hre, hfind]
  have hstat : ∀ b, is_valid_paystack_signature hmacSha512 secret
      req.raw_body (req.signature.getD "") = b →
      (b = false → (paystack_webhook hmacSha512 secret db req).status = 403) ∧
      (b = true → (paystack_webhook hmacSha512 secret db req).status = 200) := by
    intro b hb
    constructor
    · intro hbf
      rw [hbf] at hb
      unfold paystack_webhook
      rw [if_pos (by simp [hb])]
    · intro hbt
      rw [hbt] at hb
      unfold paystack_webhook
      rw [if_neg (by simp [hb])]
      rcases req.payload with _ | payload
      · rfl
      · dsimp only
        by_cases hev : payload.event ≠ some "charge.success" ∧
            payload.event ≠ some "transfer.success"
        · rw [if_pos hev]
        · rw [if_neg hev]
          rcases href : payload.reference with _ | r
          · rfl
          · dsimp only
            by_cases hre : r = ""
            · rw [if_pos hre]
            · rw [if_neg hre]
              rcases hfind : findTxn db r with _ | txn
              · rfl
              · dsimp only
                by_cases hverq : txn.is_verified = true
                · rw [if_pos hverq]
                · rw [if_neg hverq]
  by_cases hvb : is_valid_paystack_signature hmacSha512 secret req.raw_body
      (req.signature.getD "") = true
  · have h200 := (hstat true hvb).2 rfl
    refine ⟨?_, Or.inl h200,
      fun _ payload hp hb => hbenign payload hvb hp hb⟩
    rw [h200, hvb]
    simp
  · have hvb' : is_valid_paystack_signature hmacSha512 secret req.raw_body
        (req.signature.getD "") = false := by simpa using hvb
    have h403 := (hstat false hvb').1 rfl
    refine ⟨?_, Or.inr h403, fun hv => absurd hv hvb⟩
    rw [h403, hvb']
    simp

theorem C5_webhook_benign_acknowledgment_witness :
    paystack_webhook (fun _ _ => [0]) "sk" []
        ⟨[1], some "00", some ⟨some "other.event", none, none⟩⟩ =
      ⟨200, [], none⟩ :=
  (C5_webhook_benign_acknowledgment (fun _ _ => [0]) "sk" []
    ⟨[1], some "00", some ⟨some "other.event", none, none⟩⟩).2.2
    (by decide) ⟨some "other.event", none, none⟩ rfl (Or.inl (by decide))

/-- C4.  Webhook consumption is idempotent per reference: one valid
success delivery for an unverified transaction flips `is_verified` to
true (changing only that field) and acknowledges with 200; redelivering
the same event finds the transaction verified, changes nothing, and
produces the same 200 acknowledgment; and no delivery whatsoever ever
reverts a verified transaction. -/
theorem C4_webhook_idempotent (hmacSha512 : String → List Nat → List Nat)
    (secret : String) (db : List Transaction) (req : WebhookRequest)
    (payload : WebhookPayload) (r : String) (t : Transaction)
    (hsig : is_valid_paystack_signature hmacSha512 secret req.raw_body
      (req.signature.getD "") = true)
    (hp : req.payload = some payload)
    (hev : payload.event = some "charge.success" ∨
      payload.event = some "transfer.success")
    (href : payload.reference = some r) (hr : r ≠ "")
    (hfind : findTxn db r = some t) (hunv : t.is_verified = false) :
    paystack_webhook hmacSha512 secret db req =
      ⟨200, setVerified db r, some ((payload.amount.getD 0 : ℚ) / 100)⟩ ∧
    findTxn (setVerified db r) r = some { t with is_verified := true } ∧
    paystack_webhook hmacSha512 secret (setVerified db r) req =
      ⟨200, setVerified db r, none⟩ ∧
    (∀ (req' : WebhookRequest) (r' : String) (t' : Transaction),
      findTxn db r' = some t' → t'.is_verified = true →
      findTxn (paystack_webhook hmacSha512 secret db req').db r' = some t') :=
  ⟨paystack_webhook_verifies hmacSha512 secret db req payload r t hsig hp
      hev href hr hfind hunv,
   findTxn_setVerified_self db r t hfind,
   paystack_webhook_noop_verified hmacSha512 secret (setVerified db r) req
     payload r { t with is_verified := true } hsig hp hev href hr
     (findTxn_setVerified_self db r t hfind) rfl,
   fun req' r' t' hf hv =>
     paystack_webhook_preserves_verified hmacSha512 secret db req' r' t'
       hf hv⟩

theorem C4_webhook_idempotent_witness :
    paystack_webhook (fun _ _ => [0]) "sk" [⟨"r1", 10, false⟩]
        ⟨[1], some "00",
          some ⟨some "charge.success", some "r1", some 5000⟩⟩ =
      ⟨200, setVerified [⟨"r1", 10, false⟩] "r1", some ((5000 : ℚ) / 100)⟩ ∧
    paystack_webhook (fun _ _ => [0]) "sk"
        (setVerified [⟨"r1", 10, false⟩] "r1")
        ⟨[1], some "00",
          some ⟨some "charge.success", some "r1", some 5000⟩⟩ =
      ⟨200, setVerified [⟨"r1", 10, false⟩] "r1", none⟩ := by
  have h := C4_webhook_idempotent (fun _ _ => [0]) "sk" [⟨"r1", 10, false⟩]
    ⟨[1], some "00", some ⟨some "charge.success", some "r1", some 5000⟩⟩
    ⟨some "charge.success", some "r1", some 5000⟩ "r1" ⟨"r1", 10, false⟩
    (by decide) rfl (Or.inl rfl) rfl (by decide) rfl rfl
  exact ⟨h.1, h.2.2.1⟩

/-- C9.  The webhook handler performs no amount consistency check: with a
valid signature and a success event whose reference resolves to an
unverified transaction, the transaction is marked verified whatever the
amount field of the event holds (absent, zero, or different from the stored
base amount); the resulting store and status do not depend on the amount,
the stored `amount_paid` is untouched, and the event amount (divided by
100) appears only in the log output. -/
theorem C9_webhook_ignores_amount (hmacSha512 : String → List Nat → List Nat)
    (secret : String) (db : List Transaction) (raw : List Nat)
    (sig : Option String) (ev : Option String) (r : String)
    (t : Transaction) (a : Option ℤ)
    (hsig : is_valid_paystack_signature hmacSha512 secret raw
      (sig.getD "") = true)
    (hev : ev = some "charge.success" ∨ ev = some "transfer.success")
    (hr : r ≠ "") (hfind : findTxn db r = some t)
    (hunv : t.is_verified = false) :
    paystack_webhook hmacSha512 secret db ⟨raw, sig, some ⟨ev, some r, a⟩⟩ =
      ⟨200, setVerified db r, some ((a.getD 0 : ℚ) / 100)⟩ ∧
    findTxn (setVerified db r) r = some { t with is_verified := true } ∧
    (paystack_webhook hmacSha512 secret db
        ⟨raw, sig, some ⟨ev, some r, a⟩⟩).db =
      (paystack_webhook hmacSha512 secret db
        ⟨raw, sig, some ⟨ev, some r, none⟩⟩).db ∧
    (paystack_webhook hmacSha512 secret db
        ⟨raw, sig, some ⟨ev, some r, a⟩⟩).status =
      (paystack_webhook hmacSha512 secret db
        ⟨raw, sig, some ⟨ev, some r, none⟩⟩).status := by
  have h1 := paystack_webhook_verifies hmacSha512 secret db
    ⟨raw, sig, some ⟨ev, some r, a⟩⟩ ⟨ev, some r, a⟩ r t hsig rfl hev rfl
    hr hfind hunv
  have h2 := paystack_webhook_verifies hmacSha512 secret db
    ⟨raw, sig, some ⟨ev, some r, none⟩⟩ ⟨ev, some r, none⟩ r t hsig rfl hev
    rfl hr hfind hunv
  exact ⟨h1, findTxn_setVerified_self db r t hfind,
    by rw [h1, h2], by rw [h1, h2]⟩

theorem C9_webhook_ignores_amount_witness :
    paystack_webhook (fun _ _ => [0]) "sk" [⟨"r1", 10, false⟩]
        ⟨[1], some "00", some ⟨some "charge.success", some "r1", none⟩⟩ =
      ⟨200, setVerified [⟨"r1", 10, false⟩] "r1", some ((0 : ℚ) / 100)⟩ :=
  (C9_webhook_ignores_amount (fun _ _ => [0]) "sk" [⟨"r1", 10, false⟩]
    [1] (some "00") (some "charge.success") "r1" ⟨"r1", 10, false⟩ none
    (by decide) (Or.inl rfl) (by decide) rfl rfl).1

/-! ## Payment initiation (`src/transactions/views.py`, lines 230-358)

The embedding starts after the payer / association / session lookups
(those resolve out-of-scope entities); it covers the payment-item
validation, the fee computation, the creation of the pending
`Transaction` row and the gateway call.  The gateway
(`paystack_init_charge`) is an abstract function of the charged amount:
it either raises, or returns a response whose `data.authorization_url`
may be missing. -/

/-- A payable item row: primary key, owning session and price
(`PaymentItem.objects.filter(id__in=item_ids, session=session)` filters
on the first two, `item.amount` is the price). -/
structure PaymentItem where
  id : Nat
  session_id : Nat
  amount : ℚ
  deriving Repr, DecidableEq

/-- Outcome of `paystack_init_charge`: an exception, or a response whose
`data.get("authorization_url")` is `url`. -/
inductive GatewayOutcome where
  | raise : GatewayOutcome
  | ok : Option String → GatewayOutcome
  deriving Repr, DecidableEq

/-- The 201 response body of `InitiatePaymentView.post`. -/
structure InitBody where
  reference_id : String
  base_amount : ℚ
  transaction_fee : ℚ
  total_amount : ℚ
  checkout_url : String
  deriving Repr, DecidableEq

/-- What one `initiate_payment` call produces: HTTP status, the
transaction store afterwards, the amount passed to the gateway (`none`
when the gateway was never called) and the 201 response body. -/
structure InitResult where
  status : Nat
  db : List Transaction
  charged : Option ℚ
  body : Option InitBody
  deriving DecidableEq

/-- Embedding of the core of `InitiatePaymentView.post`
(`src/transactions/views.py`, lines 233-358): reject an empty id list
(400); reject when the count of items resolving in the session differs
from the count of distinct supplied ids (400); otherwise sum the resolved
prices of the resolved items into `base_amount`, compute the fee breakdown, create the
pending `Transaction` with `amount_paid = base_amount` BEFORE calling the
gateway, then charge the gateway with the fee-inclusive total: a raised
exception or a missing authorization URL yields 502 (the pending row is
kept), a URL yields 201 with the breakdown. -/
def initiate_payment_post (items_db : List PaymentItem) (session_id : Nat)
    (item_ids : List Nat) (db : List Transaction) (newRef : String)
    (gateway : ℚ → GatewayOutcome) : InitResult :=
  if item_ids = [] then ⟨400, db, none, none⟩
  else
    let items_qs := items_db.filter fun it =>
      it.id ∈ item_ids ∧ it.session_id = session_id
    if items_qs.length ≠ item_ids.dedup.length then ⟨400, db, none, none⟩
    else
      let base_amount := (items_qs.map PaymentItem.amount).sum
      let cb := calculate_paystack_charges base_amount
      let db1 := db ++ [⟨newRef, base_amount, false⟩]
      match gateway cb.total_amount with
      | .raise => ⟨502, db1, some cb.total_amount, none⟩
      | .ok none => ⟨502, db1, some cb.total_amount, none⟩
      | .ok (some url) =>
          ⟨201, db1, some cb.total_amount,
            some ⟨newRef, base_amount, cb.transaction_fee,
              cb.total_amount, url⟩⟩

/-- The number of items resolving in the session is strictly below the
number of distinct supplied ids as soon as one supplied id resolves to
nothing. -/
theorem filter_length_lt_of_bad (items_db : List PaymentItem)
    (session_id : Nat) (item_ids : List Nat)
    (hnodup : (items_db.map PaymentItem.id).Nodup)
    (i : Nat) (hi : i ∈ item_ids)
    (hbad : ∀ it ∈ items_db, it.id = i → it.session_id ≠ session_id) :
    (items_db.filter fun it =>
        it.id ∈ item_ids ∧ it.session_id = session_id).length <
      item_ids.dedup.length := by
  classical
  set qs := items_db.filter fun it =>
    it.id ∈ item_ids ∧ it.session_id = session_id with hqs
  have hqs_sub : List.Sublist qs items_db := List.filter_sublist items_db
  have hids_nodup : (qs.map PaymentItem.id).Nodup :=
    List.Nodup.sublist (List.Sublist.map PaymentItem.id hqs_sub) hnodup
  have hmem : ∀ it ∈ qs, it.id ∈ item_ids ∧ it.session_id = session_id := by
    intro it hit
    have := (List.mem_filter.mp hit).2
    simpa using this
  have hsub : (qs.map PaymentItem.id).toFinset ⊆ item_ids.toFinset := by
    intro x hx
    rw [List.mem_toFinset] at hx ⊢
    obtain ⟨it, hit, rfl⟩ := List.mem_map.mp hx
    exact (hmem it hit).1
  have hnotin : i ∉ (qs.map PaymentItem.id).toFinset := by
    rw [List.mem_toFinset]
    intro hx
    obtain ⟨it, hit, hid⟩ := List.mem_map.mp hx
    have hitdb : it ∈ items_db := (List.mem_filter.mp hit).1
    exact hbad it hitdb hid (hmem it hit).2
  have hss : (qs.map PaymentItem.id).toFinset ⊂ item_ids.toFinset :=
    (Finset.ssubset_iff_of_subset hsub).mpr
      ⟨i, List.mem_toFinset.mpr hi, hnotin⟩
  have hcard := Finset.card_lt_card hss
  rw [List.toFinset_card_of_nodup hids_nodup, List.card_toFinset,
    List.length_map] at hcard
  exact hcard

/-- The number of items resolving in the session equals the number of
distinct supplied ids when every supplied id resolves. -/
theorem filter_length_eq_of_all (items_db : List PaymentItem)
    (session_id : Nat) (item_ids : List Nat)
    (hnodup : (items_db.map PaymentItem.id).Nodup)
    (hall : ∀ i ∈ item_ids, ∃ it ∈ items_db,
      it.id = i ∧ it.session_id = session_id) :
    (items_db.filter fun it =>
        it.id ∈ item_ids ∧ it.session_id = session_id).length =
      item_ids.dedup.length := by
  classical
  set qs := items_db.filter fun it =>
    it.id ∈ item_ids ∧ it.session_id = session_id with hqs
  have hqs_sub : List.Sublist qs items_db := List.filter_sublist items_db
  have hids_nodup : (qs.map PaymentItem.id).Nodup :=
    List.Nodup.sublist (List.Sublist.map PaymentItem.id hqs_sub) hnodup
  have hmem : ∀ it ∈ qs, it.id ∈ item_ids ∧ it.session_id = session_id := by
    intro it hit
    have := (List.mem_filter.mp hit).2
    simpa using this
  have hfin : (qs.map PaymentItem.id).toFinset = item_ids.toFinset := by
    apply Finset.Subset.antisymm
    · intro x hx
      rw [List.mem_toFinset] at hx ⊢
      obtain ⟨it, hit, rfl⟩ := List.mem_map.mp hx
      exact (hmem it hit).1
    · intro x hx
      rw [List.mem_toFinset] at hx ⊢
      obtain ⟨it, hitdb, hid, hses⟩ := hall x hx
      refine List.mem_map.mpr ⟨it, ?_, hid⟩
      refine List.mem_filter.mpr ⟨hitdb, ?_⟩
      simp [hid, hses, hx]
  have := congrArg Finset.card hfin
  rw [List.toFinset_card_of_nodup hids_nodup, List.card_toFinset,
    List.length_map] at this
  exact this

/-- C6.  When some supplied payment-item id does not resolve to a payable
item of the given session, `initiate_payment_post` answers 400, creates
no `Transaction` row, and never calls the gateway. -/
theorem C6_unresolvable_item_is_rejected (items_db : List PaymentItem)
    (session_id : Nat) (item_ids : List Nat) (db : List Transaction)
    (newRef : String) (gateway : ℚ → GatewayOutcome)
    (hnodup : (items_db.map PaymentItem.id).Nodup)
    (i : Nat) (hi : i ∈ item_ids)
    (hbad : ∀ it ∈ items_db, it.id = i → it.session_id ≠ session_id) :
    initiate_payment_post items_db session_id item_ids db newRef gateway =
      ⟨400, db, none, none⟩ := by
  have hne : item_ids ≠ [] := by
    intro h
    rw [h] at hi
    cases hi
  have hlt := filter_length_lt_of_bad items_db session_id item_ids hnodup
    i hi hbad
  unfold initiate_payment_post
  rw [if_neg hne, if_pos (Nat.ne_of_lt hlt)]

theorem C6_unresolvable_item_is_rejected_witness :
    initiate_payment_post [⟨1, 7, 10⟩] 7 [2] [] "ref" (fun _ => .raise) =
      ⟨400, [], none, none⟩ :=
  C6_unresolvable_item_is_rejected [⟨1, 7, 10⟩] 7 [2] [] "ref"
    (fun _ => .raise) (by decide) 2 (by decide) (by decide)

/-- C7.  After validation passes, the pending `Transaction` (with
`amount_paid` equal to the base amount, unverified) is created before the
gateway call, so on a gateway exception or a missing checkout URL the row
still exists, stays unverified, and the caller gets 502; on success the
stored amount is the base amount while the gateway was charged the
fee-inclusive total (equal to base plus fee whenever the base is an exact
2-fraction-digit amount). -/
theorem C7_pending_row_survives_gateway_failure (items_db : List PaymentItem)
    (session_id : Nat) (item_ids : List Nat) (db : List Transaction)
    (newRef : String) (gateway : ℚ → GatewayOutcome)
    (hne : item_ids ≠ [])
    (hlen : (items_db.filter fun it =>
        it.id ∈ item_ids ∧ it.session_id = session_id).length =
      item_ids.dedup.length) :
    (gateway (calculate_paystack_charges
        (((items_db.filter fun it =>
            it.id ∈ item_ids ∧ it.session_id = session_id).map
          PaymentItem.amount).sum)).total_amount = .raise →
      initiate_payment_post items_db session_id item_ids db newRef gateway =
        ⟨502, db ++ [⟨newRef, ((items_db.filter fun it =>
            it.id ∈ item_ids ∧ it.session_id = session_id).map
          PaymentItem.amount).sum, false⟩],
          some (calculate_paystack_charges
            (((items_db.filter fun it =>
                it.id ∈ item_ids ∧ it.session_id = session_id).map
              PaymentItem.amount).sum)).total_amount, none⟩) ∧
    (gateway (calculate_paystack_charges
        (((items_db.filter fun it =>
            it.id ∈ item_ids ∧ it.session_id = session_id).map
          PaymentItem.amount).sum)).total_amount = .ok none →
      initiate_payment_post items_db session_id item_ids db newRef gateway =
        ⟨502, db ++ [⟨newRef, ((items_db.filter fun it =>
            it.id ∈ item_ids ∧ it.session_id = session_id).map
          PaymentItem.amount).sum, false⟩],
          some (calculate_paystack_charges
            (((items_db.filter fun it =>
                it.id ∈ item_ids ∧ it.session_id = session_id).map
              PaymentItem.amount).sum)).total_amount, none⟩) ∧
    (∀ url, gateway (calculate_paystack_charges
        (((items_db.filter fun it =>
            it.id ∈ item_ids ∧ it.session_id = session_id).map
          PaymentItem.amount).sum)).total_amount = .ok (some url) →
      initiate_payment_post items_db session_id item_ids db newRef gateway =
        ⟨201, db ++ [⟨newRef, ((items_db.filter fun it =>
            it.id ∈ item_ids ∧ it.session_id = session_id).map
          PaymentItem.amount).sum, false⟩],
          some (calculate_paystack_charges
            (((items_db.filter fun it =>
                it.id ∈ item_ids ∧ it.session_id = session_id).map
              PaymentItem.amount).sum)).total_amount,
          some ⟨newRef, ((items_db.filter fun it =>
              it.id ∈ item_ids ∧ it.session_id = session_id).map
            PaymentItem.amount).sum,
            (calculate_paystack_charges
              (((items_db.filter fun it =>
                  it.id ∈ item_ids ∧ it.session_id = session_id).map
                PaymentItem.amount).sum)).transaction_fee,
            (calculate_paystack_charges
              (((items_db.filter fun it =>
                  it.id ∈ item_ids ∧ it.session_id = session_id).map
                PaymentItem.amount).sum)).total_amount, url⟩⟩) ∧
    ((∃ k : ℕ, ((items_db.filter fun it =>
          it.id ∈ item_ids ∧ it.session_id = session_id).map
        PaymentItem.amount).sum = (k : ℚ) / 100) →
      (calculate_paystack_charges
        (((items_db.filter fun it =>
            it.id ∈ item_ids ∧ it.session_id = session_id).map
          PaymentItem.amount).sum)).total_amount =
        ((items_db.filter fun it =>
            it.id ∈ item_ids ∧ it.session_id = session_id).map
          PaymentItem.amount).sum +
        (calculate_paystack_charges
          (((items_db.filter fun it =>
              it.id ∈ item_ids ∧ it.session_id = session_id).map
            PaymentItem.amount).sum)).transaction_fee) := by
  refine ⟨fun hg => ?_, fun hg => ?_, fun url hg => ?_, fun h2dp => ?_⟩
  · simp only [initiate_payment_post]
    rw [if_neg hne, if_neg (not_ne_iff.mpr hlen), hg]
  · simp only [initiate_payment_post]
    rw [if_neg hne, if_neg (not_ne_iff.mpr hlen), hg]
  · simp only [initiate_payment_post]
    rw [if_neg hne, if_neg (not_ne_iff.mpr hlen), hg]
  · obtain ⟨k, hk⟩ := h2dp
    show (calculate_paystack_charges _).base_amount +
      (calculate_paystack_charges _).transaction_fee = _ + _
    rw [show (calculate_paystack_charges (((items_db.filter fun it =>
        it.id ∈ item_ids ∧ it.session_id = session_id).map
      PaymentItem.amount).sum)).base_amount = ((items_db.filter fun it =>
        it.id ∈ item_ids ∧ it.session_id = session_id).map
      PaymentItem.amount).sum from by rw [hk]; exact quantize2HalfEven_div100 k]

theorem C7_pending_row_survives_gateway_failure_witness :
    initiate_payment_post [⟨1, 7, 10⟩] 7 [1] [] "ref" (fun _ => .raise) =
      ⟨502, [] ++ [⟨"ref", (([⟨1, 7, 10⟩].filter fun it =>
          it.id ∈ [1] ∧ it.session_id = 7).map PaymentItem.amount).sum,
        false⟩],
        some (calculate_paystack_charges
          ((([⟨1, 7, 10⟩].filter fun it =>
              it.id ∈ [1] ∧ it.session_id = 7).map
            PaymentItem.amount).sum)).total_amount, none⟩ :=
  (C7_pending_row_survives_gateway_failure [⟨1, 7, 10⟩] 7 [1] [] "ref"
    (fun _ => .raise) (by decide) (by decide)).1 rfl

/-- C10.  Duplicate ids in `payment_item_ids` are tolerated: the result
is the same as with the deduplicated list, validation passes whenever
every supplied id resolves in the session, and the `amount_paid` of the
created pending row sums the price of each distinct resolved item exactly once. -/
theorem C10_duplicate_ids_tolerated (items_db : List PaymentItem)
    (session_id : Nat) (item_ids : List Nat) (db : List Transaction)
    (newRef : String) (gateway : ℚ → GatewayOutcome)
    (hnodup : (items_db.map PaymentItem.id).Nodup)
    (hall : ∀ i ∈ item_ids, ∃ it ∈ items_db,
      it.id = i ∧ it.session_id = session_id)
    (hne : item_ids ≠ []) :
    initiate_payment_post items_db session_id item_ids db newRef gateway =
      initiate_payment_post items_db session_id item_ids.dedup db newRef
        gateway ∧
    (initiate_payment_post items_db session_id item_ids db newRef
      gateway).status ≠ 400 ∧
    (initiate_payment_post items_db session_id item_ids db newRef
      gateway).db = db ++ [⟨newRef, ((items_db.filter fun it =>
        it.id ∈ item_ids ∧ it.session_id = session_id).map
      PaymentItem.amount).sum, false⟩] := by
  have hlen := filter_length_eq_of_all items_db session_id item_ids hnodup
    hall
  have hfeq : (items_db.filter fun it =>
      it.id ∈ item_ids.dedup ∧ it.session_id = session_id) =
      items_db.filter fun it =>
        it.id ∈ item_ids ∧ it.session_id = session_id := by
    apply List.filter_congr
    intro it _
    simp [List.mem_dedup]
  refine ⟨?_, ?_, ?_⟩
  · simp only [initiate_payment_post, hfeq, List.dedup_idem,
      List.dedup_eq_nil]
  · simp only [initiate_payment_post]
    rw [if_neg hne, if_neg (not_ne_iff.mpr hlen)]
    rcases hg : gateway (calculate_paystack_charges
        (((items_db.filter fun it =>
            it.id ∈ item_ids ∧ it.session_id = session_id).map
          PaymentItem.amount).sum)).total_amount with _ | url
    · rw [hg]; simp
    · rcases url with _ | url
      · rw [hg]; simp
      · rw [hg]; simp
  · simp only [initiate_payment_post]
    rw [if_neg hne, if_neg (not_ne_iff.mpr hlen)]
    rcases hg : gateway (calculate_paystack_charges
        (((items_db.filter fun it =>
            it.id ∈ item_ids ∧ it.session_id = session_id).map
          PaymentItem.amount).sum)).total_amount with _ | url
    · rw [hg]
    · rcases url with _ | url
      · rw [hg]
      · rw [hg]

theorem C10_duplicate_ids_tolerated_witness :
    initiate_payment_post [⟨1, 7, 10⟩] 7 [1, 1] [] "ref" (fun _ => .ok none) =
      initiate_payment_post [⟨1, 7, 10⟩] 7 ([1, 1].dedup) [] "ref"
        (fun _ => .ok none) ∧
    (initiate_payment_post [⟨1, 7, 10⟩] 7 [1, 1] [] "ref"
      (fun _ => .ok none)).status ≠ 400 ∧
    (initiate_payment_post [⟨1, 7, 10⟩] 7 [1, 1] [] "ref"
      (fun _ => .ok none)).db = [] ++ [⟨"ref", (([⟨1, 7, 10⟩].filter fun it =>
        it.id ∈ [1, 1] ∧ it.session_id = 7).map PaymentItem.amount).sum,
      false⟩] :=
  C10_duplicate_ids_tolerated [⟨1, 7, 10⟩] 7 [1, 1] [] "ref"
    (fun _ => .ok none) (by decide) (by decide) (by decide)

end Duespay
